import Mathlib

/-!
Verification of `models.py` (WebObjExtractionNet) from the
CoVA-Web-Object-Detection repository.

The module defines a single `nn.Module` assembling a truncated pretrained
convolutional backbone (alexnet or resnet18), an `RoIPool` layer whose
spatial scale is computed from a dummy forward pass, and a classification
head, together with a `forward` that classifies each bounding box from
RoI-pooled visual features optionally concatenated with positional features.

The shallow embedding below models:
  * the layer structure of the two torchvision backbones and their
    shape semantics (output channels and spatial size),
  * Python list slicing as used for backbone truncation,
  * the attribute surface of `torch.nn` that `__init__` touches
    (the source spells `nn.Relu`, which does not exist),
  * the state assembled by `__init__` (modules, frozen-parameter flags,
    spatial scale, feature widths, classifier layer list),
  * the shape flow of `forward`, and the exact contents of the positional
    features and the combined feature vector over rational tensors,
  * an explicit storage model for the bboxes tensor, distinguishing views
    from cloned (fresh) tensors, to settle the frame property of `forward`.
-/

namespace CoVA

/-- Output spatial dimension of a square convolution / max-pooling layer:
`floor((h + 2*padding - kernel) / stride) + 1`. -/
def convOutDim (h k s p : Nat) : Nat := (h + 2 * p - k) / s + 1

/-- A torchvision module appearing as a child of the two backbones.
`resLayer inC outC stride` stands for a resnet layer of two `BasicBlock`s,
the first with the given stride. -/
inductive Layer where
  | conv2d (inC outC k s p : Nat) (bias : Bool)
  | relu2d
  | maxpool2d (k s p : Nat)
  | batchnorm2d (c : Nat)
  | resLayer (inC outC stride : Nat)
  | adaptiveAvgPool
  | fc (inF outF : Nat)
  deriving DecidableEq, Repr

/-- Shape semantics of one layer on a square input, as `(channels, height)`. -/
def layerOutShape : Layer → Nat × Nat → Nat × Nat
  | .conv2d _ outC k s p _, (_, h) => (outC, convOutDim h k s p)
  | .relu2d, ch => ch
  | .maxpool2d k s p, (c, h) => (c, convOutDim h k s p)
  | .batchnorm2d _, ch => ch
  | .resLayer _ outC stride, (_, h) => (outC, convOutDim h 3 stride 1)
  | .adaptiveAvgPool, (c, _) => (c, 1)
  | .fc _ outF, (_, h) => (outF, h)

/-- Shape of a feature map after running a list of layers (`nn.Sequential`). -/
def seqOutShape (mods : List Layer) (ch : Nat × Nat) : Nat × Nat :=
  mods.foldl (fun s l => layerOutShape l s) ch

/-- Modelled from the torchvision model zoo: the children of
`torchvision.models.alexnet(pretrained=True).features`. -/
def alexnetFeatures : List Layer :=
  [ .conv2d 3 64 11 4 2 true, .relu2d, .maxpool2d 3 2 0,
    .conv2d 64 192 5 1 2 true, .relu2d, .maxpool2d 3 2 0,
    .conv2d 192 384 3 1 1 true, .relu2d,
    .conv2d 384 256 3 1 1 true, .relu2d,
    .conv2d 256 256 3 1 1 true, .relu2d,
    .maxpool2d 3 2 0 ]

/-- Modelled from the torchvision model zoo: the ten children of
`torchvision.models.resnet18(pretrained=True)`: conv1, bn1, relu, maxpool,
layer1..layer4, avgpool, fc. -/
def resnet18Children : List Layer :=
  [ .conv2d 3 64 7 2 3 false, .batchnorm2d 64, .relu2d, .maxpool2d 3 2 1,
    .resLayer 64 64 1, .resLayer 64 128 2, .resLayer 128 256 2,
    .resLayer 256 512 2, .adaptiveAvgPool, .fc 512 1000 ]

/-- Python list slicing `xs[:stop]`, including a negative stop index. -/
def pySliceUpto (stop : Int) (xs : List α) : List α :=
  if 0 ≤ stop then xs.take stop.toNat else xs.take (xs.length - (-stop).toNat)

/-- models.py lines 31-33: an unrecognized backbone string is silently
replaced by `'alexnet'`. -/
def normBackbone (b : String) : String :=
  if b ∈ ["alexnet", "resnet"] then b else "alexnet"

/-- models.py lines 35-42: `list(self.convnet.children())[:-5]` for resnet,
`list(self.convnet.features.children())[:7]` for alexnet.  The final branch is
unreachable after `normBackbone` (in Python, `modules` would be unbound). -/
def truncatedModules (b : String) : List Layer :=
  if b = "resnet" then pySliceUpto (-5) resnet18Children
  else if b = "alexnet" then pySliceUpto 7 alexnetFeatures
  else []

/-- Number of parameter tensors of a layer (weights and biases of convolutions,
linear maps and batchnorms; resnet `BasicBlock` pairs carry 12, or 15 with a
downsampling shortcut). -/
def layerNumParams : Layer → Nat
  | .conv2d _ _ _ _ _ bias => if bias then 2 else 1
  | .relu2d => 0
  | .maxpool2d _ _ _ => 0
  | .batchnorm2d _ => 2
  | .resLayer inC outC s => if inC = outC ∧ s = 1 then 12 else 15
  | .adaptiveAvgPool => 0
  | .fc _ _ => 2

/-- One layer of the classification head. -/
inductive CLayer where
  | batchnorm1d (n : Nat)
  | linear (inF outF : Nat)
  | relu1d
  | dropout (p : ℚ)
  deriving DecidableEq, Repr

/-- models.py lines 58-65: the structure of the classification head
`Sequential(BatchNorm1d(n_feat), Linear(n_feat, n_feat), BatchNorm1d(n_feat),
ReLU, Dropout(drop_prob), Linear(n_feat, n_classes))`. -/
def classifierLayers (nFeat nClasses : Nat) (dropProb : ℚ) : List CLayer :=
  [ .batchnorm1d nFeat, .linear nFeat nFeat, .batchnorm1d nFeat,
    .relu1d, .dropout dropProb, .linear nFeat nClasses ]

/-- Number of parameter tensors of a classification-head layer. -/
def clayerNumParams : CLayer → Nat
  | .batchnorm1d _ => 2
  | .linear _ _ => 2
  | .relu1d => 0
  | .dropout _ => 0

/-- The state assembled by `WebObjExtractionNet.__init__` (models.py
lines 26-65): truncated backbone, per-parameter `requires_grad` flags,
RoIPool spatial scale, feature widths and the classification head. -/
structure NetState where
  imgH : Nat
  nClasses : Nat
  usePosFeat : Bool
  modules : List Layer
  convnetParamFlags : List Bool
  spatialScale : ℚ
  nVisualFeat : Nat
  nPosFeat : Nat
  nFeat : Nat
  roiOutputSize : Nat × Nat
  classifier : List CLayer
  classifierParamFlags : List Bool
  deriving Repr

/-- models.py lines 26-65 as a pure state builder.  Line numbers:
31-33 backbone normalization, 35-42 truncation, 43-45 the freeze loop
(pretrained parameters start with `requires_grad = True`), 47-50 the dummy
forward pass and `spatial_scale = H_feat / img_H`, 52-54 the feature widths,
56 the RoIPool, 58-65 the classification head. -/
def initState (roi : Nat × Nat) (imgH nClasses : Nat) (b : String)
    (trainable : Bool) (dropProb : ℚ) (usePos : Bool) : NetState :=
  let b2 := normBackbone b
  let mods := truncatedModules b2
  let flags0 := mods.flatMap (fun l => List.replicate (layerNumParams l) true)
  let flags := if trainable = false then flags0.map (fun _p => false) else flags0
  let ch := seqOutShape mods (3, imgH)
  let scale : ℚ := (ch.2 : ℚ) / (imgH : ℚ)
  let nV := ch.1 * roi.1 * roi.2
  let nP := if usePos then 4 else 0
  let nF := nV + nP
  let cls := classifierLayers nF nClasses dropProb
  { imgH := imgH
    nClasses := nClasses
    usePosFeat := usePos
    modules := mods
    convnetParamFlags := flags
    spatialScale := scale
    nVisualFeat := nV
    nPosFeat := nP
    nFeat := nF
    roiOutputSize := roi
    classifier := cls
    classifierParamFlags := cls.flatMap (fun l => List.replicate (clayerNumParams l) true) }

/-- Modelled from the torch.nn API surface: the attributes of `torch.nn`
that this module could refer to.  Python attribute access is case sensitive;
`torch.nn` exports `ReLU` but no attribute named `Relu`. -/
def torchNNAttrs : List String :=
  [ "Module", "Sequential", "Linear", "ReLU", "Dropout",
    "BatchNorm1d", "BatchNorm2d", "Conv2d", "MaxPool2d", "AdaptiveAvgPool2d" ]

/-- The `torch.nn` attribute names looked up, in order, while building the
classification head (models.py lines 59-64, exactly as spelled in the
source: the fourth is `Relu`). -/
def classifierAttrCalls : List String :=
  ["BatchNorm1d", "Linear", "BatchNorm1d", "Relu", "Dropout", "Linear"]

/-- `WebObjExtractionNet.__init__` including Python attribute resolution:
construction succeeds only if every `torch.nn` attribute named in the
classification head exists; otherwise it raises `AttributeError` at the
first missing one. -/
def initNet (roi : Nat × Nat) (imgH nClasses : Nat) (b : String)
    (trainable : Bool) (dropProb : ℚ) (usePos : Bool) : Except String NetState :=
  let st := initState roi imgH nClasses b trainable dropProb usePos
  match classifierAttrCalls.find? (fun s => !(torchNNAttrs.contains s)) with
  | some a => Except.error ("AttributeError: module torch.nn has no attribute " ++ a)
  | none => Except.ok st

/-- Module mode: `train` or `eval`.  A freshly constructed `nn.Module` is in
`train` mode.  Dropout is active, and `BatchNorm1d` uses batch statistics,
only in `train`. -/
inductive Mode where
  | train
  | eval
  deriving DecidableEq

/-- Check of one classification-head layer on an input of `nRows` rows:
`BatchNorm1d n` and `Linear i o` require a matching input width, and in
training mode `BatchNorm1d` additionally raises
`ValueError: Expected more than 1 value per channel` unless the input has
more than one row. -/
def clayerShape (mode : Mode) (nRows : Nat) : CLayer → Nat → Option Nat
  | .batchnorm1d n, m =>
      if mode = Mode.train ∧ nRows ≤ 1 then none
      else if m = n then some m else none
  | .linear i o, m => if m = i then some o else none
  | .relu1d, m => some m
  | .dropout _, m => some m

/-- Width of the classification head's output given its input width and row
count, `none` where the head raises (dimension mismatch, or a training-mode
batchnorm on at most one row). -/
def classifierOutShape (mode : Mode) (nRows : Nat) (ls : List CLayer)
    (n : Nat) : Option Nat :=
  ls.foldlM (fun m l => clayerShape mode nRows l m) n

/-- Shape semantics of `WebObjExtractionNet.forward` (models.py lines 84-96)
in the given module mode, for a batch of images of shape `[3, imgH, imgH]`
and `nB` bounding boxes: the convnet feature map is `[batch, C, H, H]`,
RoIPool emits one `[C, r0, r1]` output per box (line 85), `view` flattens it
to `C * r0 * r1` (line 86), the positional features have width 4 or 0
(lines 89-92), `torch.cat` on dim 1 adds the widths (line 95), and the
classification head maps the `nB`-row result (line 96). -/
def forwardShape (st : NetState) (mode : Mode) (_batchSize nB : Nat) :
    Option (Nat × Nat) :=
  let ch := seqOutShape st.modules (3, st.imgH)
  let pooledLen := ch.1 * st.roiOutputSize.1 * st.roiOutputSize.2
  let posLen := if st.usePosFeat then 4 else 0
  let combinedLen := pooledLen + posLen
  match classifierOutShape mode nB st.classifier combinedLen with
  | some o => some (nB, o)
  | none => none

/-- models.py lines 91-92 applied to one bboxes row
`[batch_index, top_left_x, top_left_y, bottom_right_x, bottom_right_y]`:
slice off column 0, then `pos_feat[:, 2:] -= pos_feat[:, :2]`. -/
def posRowConvert (r : List ℚ) : List ℚ :=
  let p := r.drop 1
  p.take 2 ++ List.zipWith (fun a b => a - b) (p.drop 2) (p.take 2)

/-- models.py lines 89-92: the positional feature rows; width 0 slices
(`bboxes[:, :0]`) when positional features are disabled. -/
def posFeatures (usePos : Bool) (bboxes : List (List ℚ)) : List (List ℚ) :=
  if usePos then bboxes.map posRowConvert else bboxes.map (fun r => r.take 0)

/-- models.py line 95: `torch.cat((pooled_feat, pos_feat), dim=1)`, rows
concatenated index by index. -/
def combinedFeat (usePos : Bool) (pooledFlat bboxes : List (List ℚ)) :
    List (List ℚ) :=
  List.zipWith (fun a b => a ++ b) pooledFlat (posFeatures usePos bboxes)

/-- Weights of the classification head.  The two batchnorms are taken in
eval mode, where `BatchNorm1d` is the per-feature affine map with
precomputed scale `gamma / sqrt(running_var + eps)` and shift. -/
structure ClassifierWeights where
  bn1scale : List ℚ
  bn1shift : List ℚ
  w1 : List (List ℚ)
  b1 : List ℚ
  bn2scale : List ℚ
  bn2shift : List ℚ
  dropProb : ℚ
  w2 : List (List ℚ)
  b2 : List ℚ

/-- Per-feature affine map (eval-mode `BatchNorm1d`). -/
def affineApply (scale shift x : List ℚ) : List ℚ :=
  List.zipWith (fun p v => p.1 * v + p.2) (scale.zip shift) x

/-- Dot product of two rational vectors. -/
def dotProd (xs ws : List ℚ) : ℚ := (List.zipWith (fun a b => a * b) xs ws).sum

/-- `nn.Linear`: one output per weight row, plus bias. -/
def linearApply (w : List (List ℚ)) (b : List ℚ) (x : List ℚ) : List ℚ :=
  List.zipWith (fun wr bi => dotProd x wr + bi) w b

/-- `nn.Dropout(p)`: in train mode each coordinate is zeroed according to the
random mask and the survivors are rescaled by `1 / (1 - p)`; in eval mode it
is the identity. -/
def dropoutApply (mode : Mode) (mask : Nat → Bool) (p : ℚ) (x : List ℚ) : List ℚ :=
  match mode with
  | .train => x.enum.map (fun iv => if mask iv.1 then 0 else iv.2 / (1 - p))
  | .eval => x

/-- The classification head applied to one feature row (models.py
lines 58-65): BatchNorm1d, Linear, BatchNorm1d, ReLU, Dropout, Linear. -/
def classifierApply (w : ClassifierWeights) (mode : Mode) (mask : Nat → Bool)
    (x : List ℚ) : List ℚ :=
  let x1 := affineApply w.bn1scale w.bn1shift x
  let x2 := linearApply w.w1 w.b1 x1
  let x3 := affineApply w.bn2scale w.bn2shift x2
  let x4 := x3.map (fun v => max v 0)
  let x5 := dropoutApply mode mask w.dropProb x4
  linearApply w.w2 w.b2 x5

/-- Content semantics of `forward` downstream of RoIPool (models.py
lines 86-98): flattened pooled rows and bboxes rows in, one score row per
bounding box out. -/
def forwardScores (w : ClassifierWeights) (mode : Mode) (mask : Nat → Bool)
    (usePos : Bool) (pooledFlat bboxes : List (List ℚ)) : List (List ℚ) :=
  (combinedFeat usePos pooledFlat bboxes).map (classifierApply w mode mask)

/-- Storage of the bboxes tensor: its rows. -/
structure TStore where
  rows : List (List ℚ)
  deriving DecidableEq, Repr

/-- A tensor reference: a column-range view into the bboxes storage
(`viewCols lo none` is `bboxes[:, lo:]`, `viewCols lo (some hi)` is
`bboxes[:, lo:hi]`), or a fresh tensor with its own storage (a clone). -/
inductive TRef where
  | viewCols (lo : Nat) (hi : Option Nat)
  | fresh (data : List (List ℚ))
  deriving DecidableEq, Repr

/-- The column slice a view denotes on one row. -/
def sliceRow (lo : Nat) (hi : Option Nat) (r : List ℚ) : List ℚ :=
  match hi with
  | none => r.drop lo
  | some h => (r.take h).drop lo

/-- Read the rows a reference denotes. -/
def readRef (s : TStore) : TRef → List (List ℚ)
  | .viewCols lo hi => s.rows.map (sliceRow lo hi)
  | .fresh d => d

/-- The in-place update `t[:, 2:] -= t[:, :2]` applied to one row of data. -/
def subAssignRow (r : List ℚ) : List ℚ :=
  r.take 2 ++ List.zipWith (fun a b => a - b) (r.drop 2) (r.take 2)

/-- Write the in-place update through a view into a full storage row. -/
def writeViewRow (lo : Nat) (hi : Option Nat) (r : List ℚ) : List ℚ :=
  r.take lo ++ subAssignRow (sliceRow lo hi r) ++
    (match hi with | none => [] | some h => r.drop h)

/-- The in-place statement `t[:, 2:] -= t[:, :2]` on a reference: on a view
it writes through to the bboxes storage; on a fresh tensor it only changes
the fresh data. -/
def ipSubAssign (s : TStore) : TRef → TRef × TStore
  | .viewCols lo hi => (.viewCols lo hi, ⟨s.rows.map (writeViewRow lo hi)⟩)
  | .fresh d => (.fresh (d.map subAssignRow), s)

/-- models.py lines 89-92 over the storage model: `pos_feat = bboxes[:, :0]`
(line 89, a view), then if positional features are enabled,
`pos_feat = bboxes[:, 1:].clone()` (line 91, a fresh tensor) followed by the
in-place `pos_feat[:, 2:] -= pos_feat[:, :2]` (line 92).  Returns the
positional-feature reference and the bboxes storage after the block. -/
def forwardPos (usePos : Bool) (s : TStore) : TRef × TStore :=
  let pf0 : TRef := .viewCols 0 (some 0)
  if usePos then
    let pf1 : TRef := .fresh (readRef s (.viewCols 1 none))
    ipSubAssign s pf1
  else (pf0, s)

/-! ## Theorems -/

/-- C1: the spec expects construction to succeed for every valid argument
combination, assembling the head BatchNorm1d, Linear, BatchNorm1d, ReLU,
Dropout, Linear.  The source instead spells the fourth layer `nn.Relu`
(models.py line 62), an attribute `torch.nn` does not have, so for every
argument combination `__init__` raises `AttributeError` while building the
classification head and no network is ever constructed. -/
theorem initNet_raises_at_Relu (roi : Nat × Nat) (imgH nClasses : Nat)
    (b : String) (trainable : Bool) (dropProb : ℚ) (usePos : Bool) :
    initNet roi imgH nClasses b trainable dropProb usePos =
      Except.error "AttributeError: module torch.nn has no attribute Relu" := by
  rfl

/-- C3: the spatial scale assembled by `__init__` is
`H_feat / img_H` where `H_feat` is the height of the feature map of the
truncated backbone on a `[1, 3, img_H, img_H]` dummy input, so for every
positive `img_H` the scale times `img_H` recovers the backbone output
height. -/
theorem spatialScale_times_imgH (roi : Nat × Nat) (imgH nClasses : Nat)
    (b : String) (trainable : Bool) (dropProb : ℚ) (usePos : Bool)
    (h : 0 < imgH) :
    (initState roi imgH nClasses b trainable dropProb usePos).spatialScale =
      ((seqOutShape (truncatedModules (normBackbone b)) (3, imgH)).2 : ℚ) / (imgH : ℚ) ∧
    (initState roi imgH nClasses b trainable dropProb usePos).spatialScale * (imgH : ℚ) =
      ((seqOutShape (truncatedModules (normBackbone b)) (3, imgH)).2 : ℚ) := by
  have himg : ((imgH : ℚ)) ≠ 0 := by
    exact_mod_cast Nat.pos_iff_ne_zero.mp h
  constructor
  · rfl
  · show ((seqOutShape (truncatedModules (normBackbone b)) (3, imgH)).2 : ℚ) / (imgH : ℚ) * (imgH : ℚ) = _
    exact div_mul_cancel₀ _ himg

/-- Witness for C3 at `roi = (7, 7)`, `img_H = 224`, alexnet backbone
(feature-map height 13, scale `13 / 224`). -/
theorem spatialScale_times_imgH_witness :
    0 < 224 ∧
    ((initState (7, 7) 224 5 "alexnet" true (1/5) true).spatialScale =
      ((seqOutShape (truncatedModules (normBackbone "alexnet")) (3, 224)).2 : ℚ) / (224 : ℚ) ∧
    (initState (7, 7) 224 5 "alexnet" true (1/5) true).spatialScale * (224 : ℚ) =
      ((seqOutShape (truncatedModules (normBackbone "alexnet")) (3, 224)).2 : ℚ)) :=
  ⟨by decide, spatialScale_times_imgH (7, 7) 224 5 "alexnet" true (1/5) true (by decide)⟩

/-- C5: backbone truncation keeps all resnet18 children except the last
five, and exactly the first seven children of alexnet's `features`. -/
theorem truncatedModules_spec :
    truncatedModules "resnet" = resnet18Children.take (resnet18Children.length - 5) ∧
    truncatedModules "alexnet" = alexnetFeatures.take 7 := by
  decide

/-- Auxiliary: a constant-false map makes every flag false. -/
theorem all_map_false {α : Type} (l : List α) :
    (l.map (fun _p => false)).all (fun f => f == false) = true := by
  induction l with
  | nil => rfl
  | cons a t ih => simp [ih]

/-- Auxiliary: flags built from `replicate _ true` are all true. -/
theorem all_flatMap_replicate_true {α : Type} (g : α → Nat) (l : List α) :
    (l.flatMap (fun x => List.replicate (g x) true)).all (fun f => f == true) = true := by
  rw [List.all_eq_true]
  intro f hf
  rcases List.mem_flatMap.mp hf with ⟨a, _, hfa⟩
  simpa using (List.mem_replicate.mp hfa).2

/-- C2 counterexample: the claim has no mode restriction, but a freshly
constructed module is in training mode, where `BatchNorm1d` raises
`ValueError: Expected more than 1 value per channel` on a single row: with
a single bounding box (`N = 1`, well within the claim's stated shape and
index conditions) `forward` raises instead of returning a `[1, n_classes]`
score tensor. -/
theorem forwardShape_train_single_box :
    forwardShape (initState (7, 7) 224 5 "alexnet" true (1/5) true)
        Mode.train 1 1 = none ∧
    forwardShape (initState (7, 7) 224 5 "alexnet" true (1/5) true)
        Mode.train 1 1 ≠ some (1, 5) := by
  constructor
  · rfl
  · intro h
    cases h

/-- C2 as amended: for every assembled network state and box count `nB`,
the shape flow of `forward` yields a prediction-score tensor of shape
`[total_n_bboxes_in_batch, n_classes]` — one score per class per bounding
box — in evaluation mode, and in training mode whenever there is more than
one bounding box. -/
theorem forwardShape_eq (roi : Nat × Nat) (imgH nClasses : Nat) (b : String)
    (trainable : Bool) (dropProb : ℚ) (usePos : Bool) (mode : Mode)
    (batch nB : Nat) (h : mode = Mode.eval ∨ 2 ≤ nB) :
    forwardShape (initState roi imgH nClasses b trainable dropProb usePos)
        mode batch nB = some (nB, nClasses) := by
  have hbn : ¬ (mode = Mode.train ∧ nB ≤ 1) := by
    rcases h with h | h
    · rintro ⟨h1, _⟩
      rw [h] at h1
      cases h1
    · rintro ⟨_, h2⟩
      omega
  simp [forwardShape, initState, classifierOutShape, classifierLayers,
    clayerShape, hbn]

/-- Witness for the amended C2: eval mode with a single bounding box. -/
theorem forwardShape_eq_witness :
    (Mode.eval = Mode.eval ∨ 2 ≤ 1) ∧
    forwardShape (initState (7, 7) 224 5 "alexnet" true (1/5) true)
        Mode.eval 1 1 = some (1, 5) :=
  ⟨Or.inl rfl,
    forwardShape_eq (7, 7) 224 5 "alexnet" true (1/5) true Mode.eval 1 1
      (Or.inl rfl)⟩

/-- C8: an unrecognized backbone string does not make `__init__` fail on
that account: it is silently replaced by `'alexnet'`, and the whole
construction behaves exactly as with `backbone = 'alexnet'`. -/
theorem invalid_backbone_fallback (roi : Nat × Nat) (imgH nClasses : Nat)
    (b : String) (trainable : Bool) (dropProb : ℚ) (usePos : Bool)
    (h : b ∉ ["alexnet", "resnet"]) :
    initState roi imgH nClasses b trainable dropProb usePos =
      initState roi imgH nClasses "alexnet" trainable dropProb usePos ∧
    initNet roi imgH nClasses b trainable dropProb usePos =
      initNet roi imgH nClasses "alexnet" trainable dropProb usePos := by
  have hb : normBackbone b = "alexnet" := by
    simp [normBackbone, h]
  have hb2 : normBackbone "alexnet" = "alexnet" := rfl
  constructor
  · unfold initState
    rw [hb, hb2]
  · unfold initNet initState
    rw [hb, hb2]

/-- Witness for C8 at the invalid backbone string `"vgg16"`. -/
theorem invalid_backbone_fallback_witness :
    "vgg16" ∉ ["alexnet", "resnet"] ∧
    (initState (7, 7) 224 5 "vgg16" true (1/5) true =
      initState (7, 7) 224 5 "alexnet" true (1/5) true ∧
    initNet (7, 7) 224 5 "vgg16" true (1/5) true =
      initNet (7, 7) 224 5 "alexnet" true (1/5) true) :=
  ⟨by decide, invalid_backbone_fallback (7, 7) 224 5 "vgg16" true (1/5) true (by decide)⟩

/-- C9: constructing with `trainable_convnet = False` freezes every
backbone parameter (`requires_grad = False` for all of them), while every
classification-head parameter keeps `requires_grad = True`. -/
theorem frozen_backbone_flags (roi : Nat × Nat) (imgH nClasses : Nat)
    (b : String) (dropProb : ℚ) (usePos : Bool) :
    ((initState roi imgH nClasses b false dropProb usePos).convnetParamFlags.all
      (fun f => f == false)) = true ∧
    ((initState roi imgH nClasses b false dropProb usePos).classifierParamFlags.all
      (fun f => f == true)) = true := by
  constructor
  · exact all_map_false ((truncatedModules (normBackbone b)).flatMap
      (fun l => List.replicate (layerNumParams l) true))
  · exact all_flatMap_replicate_true clayerNumParams
      (classifierLayers
        ((seqOutShape (truncatedModules (normBackbone b)) (3, imgH)).1 * roi.1 * roi.2 +
          if usePos then 4 else 0) nClasses dropProb)

/-- C4: with positional features enabled, the feature row fed to the
classification head for bounding box `k` is the flattened pooled visual row
followed by exactly the four positional features
`[top_left_x, top_left_y, width, height]` with
`width = bottom_right_x - top_left_x` and
`height = bottom_right_y - top_left_y`; and the assembled feature width is
`n_visual_feat + 4`. -/
theorem combinedFeat_pos_row (pooled bboxes : List (List ℚ)) (k : Nat)
    (row : List ℚ) (i x y bx by2 : ℚ)
    (hp : pooled[k]? = some row)
    (hb : bboxes[k]? = some [i, x, y, bx, by2]) :
    (combinedFeat true pooled bboxes)[k]? =
      some (row ++ [x, y, bx - x, by2 - y]) ∧
    ∀ (roi : Nat × Nat) (imgH nClasses : Nat) (b : String) (trainable : Bool)
      (dropProb : ℚ),
      (initState roi imgH nClasses b trainable dropProb true).nFeat =
        (initState roi imgH nClasses b trainable dropProb true).nVisualFeat + 4 := by
  constructor
  · simp [combinedFeat, posFeatures, List.getElem?_zipWith, hp, hb, posRowConvert]
  · intro roi imgH nClasses b trainable dropProb
    rfl

/-- Witness for C4 at one pooled row `[1, 2]` and the box
`[0, 10, 20, 30, 50]` (width 20, height 30). -/
theorem combinedFeat_pos_row_witness :
    ([[(1 : ℚ), 2]])[0]? = some [(1 : ℚ), 2] ∧
    ([[(0 : ℚ), 10, 20, 30, 50]])[0]? = some [(0 : ℚ), 10, 20, 30, 50] ∧
    ((combinedFeat true [[(1 : ℚ), 2]] [[(0 : ℚ), 10, 20, 30, 50]])[0]? =
      some [(1 : ℚ), 2, 10, 20, 30 - 10, 50 - 20] ∧
    ∀ (roi : Nat × Nat) (imgH nClasses : Nat) (b : String) (trainable : Bool)
      (dropProb : ℚ),
      (initState roi imgH nClasses b trainable dropProb true).nFeat =
        (initState roi imgH nClasses b trainable dropProb true).nVisualFeat + 4) :=
  ⟨rfl, rfl,
    combinedFeat_pos_row [[(1 : ℚ), 2]] [[(0 : ℚ), 10, 20, 30, 50]] 0
      [(1 : ℚ), 2] 0 10 20 30 50 rfl rfl⟩

/-- Auxiliary: concatenating empty rows on the right is the identity when
the row counts agree. -/
theorem zipWith_append_nil_rows (p : List (List ℚ)) (n : Nat)
    (h : p.length = n) :
    List.zipWith (fun a b => a ++ b) p (List.replicate n ([] : List ℚ)) = p := by
  induction p generalizing n with
  | nil => rfl
  | cons a t ih =>
    cases n with
    | zero => simp at h
    | succ m =>
      simp only [List.length_cons, Nat.succ.injEq] at h
      simp [List.replicate_succ, ih m h]

/-- C6: with positional features disabled, the positional block has width 0
and concatenation with it is the identity: the classification head receives
exactly the flattened pooled visual features, and `n_feat = n_visual_feat`. -/
theorem combinedFeat_no_pos (pooled bboxes : List (List ℚ))
    (h : pooled.length = bboxes.length) :
    combinedFeat false pooled bboxes = pooled ∧
    ∀ (roi : Nat × Nat) (imgH nClasses : Nat) (b : String) (trainable : Bool)
      (dropProb : ℚ),
      (initState roi imgH nClasses b trainable dropProb false).nFeat =
        (initState roi imgH nClasses b trainable dropProb false).nVisualFeat := by
  constructor
  · have h1 : posFeatures false bboxes = List.replicate bboxes.length ([] : List ℚ) := by
      simp [posFeatures]
    rw [combinedFeat, h1]
    exact zipWith_append_nil_rows pooled bboxes.length h
  · intro roi imgH nClasses b trainable dropProb
    rfl

/-- Witness for C6 at one pooled row and one box row. -/
theorem combinedFeat_no_pos_witness :
    ([[(1 : ℚ), 2]] : List (List ℚ)).length =
      ([[(0 : ℚ), 10, 20, 30, 50]] : List (List ℚ)).length ∧
    (combinedFeat false [[(1 : ℚ), 2]] [[(0 : ℚ), 10, 20, 30, 50]] =
      [[(1 : ℚ), 2]] ∧
    ∀ (roi : Nat × Nat) (imgH nClasses : Nat) (b : String) (trainable : Bool)
      (dropProb : ℚ),
      (initState roi imgH nClasses b trainable dropProb false).nFeat =
        (initState roi imgH nClasses b trainable dropProb false).nVisualFeat) :=
  ⟨rfl, combinedFeat_no_pos [[(1 : ℚ), 2]] [[(0 : ℚ), 10, 20, 30, 50]] rfl⟩

/-- C7: in eval mode the forward computation downstream of RoIPool is a
pure function of the weights and the inputs: the dropout mask (the only
source of randomness in the graph) does not influence the prediction
scores, so two calls on equal inputs return equal score tensors. -/
theorem forwardScores_eval_deterministic (w : ClassifierWeights)
    (mask1 mask2 : Nat → Bool) (usePos : Bool)
    (pooled bboxes : List (List ℚ)) :
    forwardScores w Mode.eval mask1 usePos pooled bboxes =
      forwardScores w Mode.eval mask2 usePos pooled bboxes := rfl

/-- The storage model does not make in-place updates invisible: applied to a
view instead of a clone, `t[:, 2:] -= t[:, :2]` writes through into the
bboxes storage. -/
theorem ipSubAssign_view_writes :
    (ipSubAssign ⟨[[(0 : ℚ), 1, 2, 3, 4]]⟩ (.viewCols 1 none)).2 =
      ⟨[[(0 : ℚ), 1, 2, 3 - 1, 4 - 2]]⟩ := by
  simp [ipSubAssign, writeViewRow, sliceRow, subAssignRow]

/-- C10: `forward` does not mutate its `bboxes` argument: the positional
features are computed on a `.clone()` (a fresh tensor), so the in-place
corner-to-width/height conversion leaves the bboxes storage exactly as it
was, and the positional rows read from the clone are the converted rows of
the original bboxes. -/
theorem forwardPos_frame (usePos : Bool) (s : TStore) :
    (forwardPos usePos s).2 = s ∧
    readRef (forwardPos true s).2 (forwardPos true s).1 =
      s.rows.map posRowConvert := by
  constructor
  · cases usePos <;> rfl
  · show (s.rows.map (sliceRow 1 none)).map subAssignRow = s.rows.map posRowConvert
    rw [List.map_map]
    exact rfl

end CoVA
